import Mathlib

/-!
Verification development for the yacht-crew job aggregator
(yotcrew.app): a shallow embedding of the normalization and
deduplicating-upsert pipeline, with theorems checking the
natural-language specification against the code.

Sources embedded:
  * `app/scrapers/base.py`       — enums, `UniversalJob` (pydantic model)
  * `app/scrapers/yotspot.py`    — extraction, normalization, detectors,
                                   quality score, `_parse_date`
  * `app/scrapers/daywork123.py` — detectors, quality score
  * `yotspot_scraper.py`         — legacy `_normalize_date`
  * `app/models.py`              — the `jobs` table (`external_id` is
                                   declared UNIQUE on its own)
  * `app/services/scraping_service.py` — `_save_jobs` batch upsert
  * `app/database.py`            — session configuration
                                   (`autoflush=False`): pending inserts
                                   are invisible to later queries of the
                                   same batch; constraint checks happen
                                   at the single `db.commit()`.

Machine conventions: timestamps are `Int` seconds, floats are `ℚ`
(the score arithmetic of the source is exact on these values),
strings are Lean `String`s, fallible code returns `Option`/`Except`.
-/

/-! ## String utilities (models of Python `in`, `lower`, `strip`) -/

/-- `needleIsAt needle hay` : does `hay` start with `needle`? -/
def needleIsAt : List Char → List Char → Bool
  | [], _ => true
  | _ :: _, [] => false
  | a :: as, b :: bs => a == b && needleIsAt as bs

/-- `containsSub hay needle` : does `needle` occur anywhere in `hay`?
Model of Python `needle in hay` for strings. -/
def containsSub (needle : List Char) : List Char → Bool
  | [] => needleIsAt needle []
  | h :: t => needleIsAt needle (h :: t) || containsSub needle t

/-- Python `needle in hay` on strings. -/
def strContains (hay needle : String) : Bool :=
  containsSub needle.toList hay.toList

/-- Python `any(k in text for k in ks)`. -/
def anyContained (text : String) (ks : List String) : Bool :=
  ks.any (fun k => strContains text k)

/-- Python `s.lower()` (ASCII case folding suffices for the keyword
sets of this code base). -/
def strLower (s : String) : String :=
  ⟨s.toList.map Char.toLower⟩

/-- Python `s.strip()`: drop leading and trailing whitespace. -/
def strTrim (s : String) : String :=
  ⟨((s.toList.dropWhile (·.isWhitespace)).reverse.dropWhile (·.isWhitespace)).reverse⟩

/-- Python `s.startswith(pre)`. -/
def strStarts (s pre : String) : Bool :=
  needleIsAt pre.toList s.toList

/-- Left-to-right, non-overlapping removal of every occurrence of a
nonempty `needle`, on `fuel ≥ length` characters. -/
def removeAllAux (needle : List Char) : Nat → List Char → List Char
  | 0, _ => []
  | _ + 1, [] => []
  | fuel + 1, h :: t =>
    if needleIsAt needle (h :: t) && !needle.isEmpty then
      removeAllAux needle fuel ((h :: t).drop needle.length)
    else h :: removeAllAux needle fuel t

/-- Python `s.replace(needle, '')` for a nonempty needle. -/
def strRemoveAll (s needle : String) : String :=
  ⟨removeAllAux needle.toList s.toList.length s.toList⟩

/-- Whitespace-separated tokens (what `s.split()`-style tokenization
leaves after discarding empties). -/
def pushTokChar (c : Char) : List (List Char) → List (List Char)
  | [] => [[c]]
  | t :: ts => (c :: t) :: ts

def wsTokens (l : List Char) : List String :=
  ((l.foldr (fun c acc => if c.isWhitespace then [] :: acc else pushTokChar c acc) []).filter
    (fun t => !t.isEmpty)).map (fun t => (⟨t⟩ : String))

/-! ## Enums (`app/scrapers/base.py`) -/

/-- `EmploymentType(str, Enum)` of `app/scrapers/base.py`. -/
inductive EmploymentType
  | permanent | temporary | rotational | daywork | seasonal | contract
  deriving DecidableEq, Repr

/-- `Department(str, Enum)` of `app/scrapers/base.py`. -/
inductive Department
  | deck | interior | engineering | galley | bridge | other
  deriving DecidableEq, Repr

/-- `VesselType(str, Enum)` of `app/scrapers/base.py`. -/
inductive VesselType
  | motor_yacht | sailing_yacht | catamaran | super_yacht | expedition | chase_boat
  deriving DecidableEq, Repr

/-- `JobSource(str, Enum)` of `app/scrapers/base.py`. -/
inductive JobSource
  | yotspot | daywork123 | meridian_go
  deriving DecidableEq, Repr

def EmploymentType.toStr : EmploymentType → String
  | .permanent => "permanent" | .temporary => "temporary"
  | .rotational => "rotational" | .daywork => "daywork"
  | .seasonal => "seasonal" | .contract => "contract"

def Department.toStr : Department → String
  | .deck => "deck" | .interior => "interior" | .engineering => "engineering"
  | .galley => "galley" | .bridge => "bridge" | .other => "other"

def VesselType.toStr : VesselType → String
  | .motor_yacht => "motor_yacht" | .sailing_yacht => "sailing_yacht"
  | .catamaran => "catamaran" | .super_yacht => "super_yacht"
  | .expedition => "expedition" | .chase_boat => "chase_boat"

def JobSource.toStr : JobSource → String
  | .yotspot => "yotspot" | .daywork123 => "daywork123" | .meridian_go => "meridian_go"

/-! ## Classification detectors -/

namespace Yotspot

/-- `YotspotScraper._detect_employment_type` (`app/scrapers/yotspot.py`
lines 248-263).  The argument is `Optional` because the raw dict may hold
`None` for `job_type`; the source guards with
`job_type.lower() if job_type else ""`. -/
def detectEmploymentType (jobType : Option String) : EmploymentType :=
  let l := match jobType with
    | some s => strLower s
    | none => ""
  if strContains l "permanent" then .permanent
  else if strContains l "temporary" then .temporary
  else if strContains l "rotational" then .rotational
  else if strContains l "seasonal" then .seasonal
  else if strContains l "contract" then .contract
  else .permanent

/-- `YotspotScraper._detect_department` (`app/scrapers/yotspot.py`
lines 265-283). -/
def detectDepartment (title : String) : Department :=
  let l := strLower title
  if anyContained l ["deckhand", "bosun", "mate", "captain", "officer", "deck", "skipper"] then .deck
  else if anyContained l ["stewardess", "steward", "interior", "housekeeping", "butler", "chief stewardess"] then .interior
  else if anyContained l ["engineer", "mechanic", "eto", "technical", "chief engineer"] then .engineering
  else if anyContained l ["chef", "cook", "galley", "kitchen", "sous chef", "head chef"] then .galley
  else .other

/-- `YotspotScraper._detect_vessel_type` (`app/scrapers/yotspot.py`
lines 285-298). -/
def detectVesselType (description : String) : VesselType :=
  let l := strLower description
  if strContains l "sailing" || strContains l "sail" then .sailing_yacht
  else if strContains l "catamaran" then .catamaran
  else if strContains l "superyacht" || strContains l "super yacht" then .super_yacht
  else if strContains l "expedition" then .expedition
  else .motor_yacht

/-- `YotspotScraper._calculate_quality_score` (`app/scrapers/yotspot.py`
lines 300-320): 60% completeness of title/company/location/description,
20% for url together with external id, 20%/10% description-length tiers
(thresholds 200/100), clamped by `min(1.0, score)`. -/
def calculateQualityScore (title company location description url externalId : String) : ℚ :=
  min 1
    (((if title ≠ "" then (1 : ℚ) else 0) + (if company ≠ "" then 1 else 0) +
      (if location ≠ "" then 1 else 0) + (if description ≠ "" then 1 else 0)) / 4 * (6/10)
     + (if url ≠ "" ∧ externalId ≠ "" then 2/10 else 0)
     + (if 200 < description.length then 2/10
        else if 100 < description.length then 1/10 else 0))

end Yotspot

namespace Daywork

/-- `Daywork123Scraper._detect_employment_type`
(`app/scrapers/daywork123.py` lines 355-368): daywork terms first, then
rotational, seasonal, contract/temporary, defaulting to permanent. -/
def detectEmploymentType (title : String) : EmploymentType :=
  let l := strLower title
  if anyContained l ["daywork", "day work", "daily"] then .daywork
  else if anyContained l ["rotational", "rotation"] then .rotational
  else if anyContained l ["seasonal", "season"] then .seasonal
  else if anyContained l ["contract", "temporary"] then .temporary
  else .permanent

/-- `Daywork123Scraper._detect_department` (`app/scrapers/daywork123.py`
lines 370-388). -/
def detectDepartment (title : String) : Department :=
  let l := strLower title
  if anyContained l ["deckhand", "bosun", "mate", "captain", "officer", "deck"] then .deck
  else if anyContained l ["stewardess", "steward", "interior", "housekeeping", "butler"] then .interior
  else if anyContained l ["engineer", "mechanic", "eto", "technical"] then .engineering
  else if anyContained l ["chef", "cook", "galley", "kitchen"] then .galley
  else .other

/-- `Daywork123Scraper._detect_vessel_type` (`app/scrapers/daywork123.py`
lines 390-403). -/
def detectVesselType (text : String) : VesselType :=
  let l := strLower text
  if strContains l "sailing" || strContains l "sail" then .sailing_yacht
  else if strContains l "catamaran" then .catamaran
  else if strContains l "superyacht" || strContains l "super yacht" then .super_yacht
  else if strContains l "expedition" then .expedition
  else .motor_yacht

/-- `Daywork123Scraper._calculate_quality_score`
(`app/scrapers/daywork123.py` lines 405-425): identical to the Yotspot
version except the description-length thresholds are 100/50. -/
def calculateQualityScore (title company location description url externalId : String) : ℚ :=
  min 1
    (((if title ≠ "" then (1 : ℚ) else 0) + (if company ≠ "" then 1 else 0) +
      (if location ≠ "" then 1 else 0) + (if description ≠ "" then 1 else 0)) / 4 * (6/10)
     + (if url ≠ "" ∧ externalId ≠ "" then 2/10 else 0)
     + (if 100 < description.length then 2/10
        else if 50 < description.length then 1/10 else 0))

end Daywork

/-! ## IEEE binary64 semantics for the quality score

Python floats are IEEE binary64.  The exact-ℚ reading of
`_calculate_quality_score` above matches the program only on paths
whose double arithmetic happens to be exact; for the "rounded to two
decimal places" question the rounding of every literal and operation
matters.  The model below represents each double by the exact rational
it denotes: `fl53` rounds a rational to the nearest binary64 value
(round to nearest, ties to even), valid in the normal range this code
touches (no overflow or subnormals arise from these scores), and each
arithmetic step of the source is one exact operation followed by one
`fl53` rounding, exactly as IEEE prescribes. -/

/-- Round a scaled significand to the nearest integer, ties to even. -/
def rhe (q : ℚ) : ℤ :=
  let f := ⌊q⌋
  if q - f < 1/2 then f
  else if 1/2 < q - f then f + 1
  else if f % 2 = 0 then f else f + 1

/-- Round a rational to the nearest IEEE binary64 value (normal
range): split off sign, scale the magnitude to a 53-bit significand by
the floor base-2 logarithm, round ties-to-even, and reassemble. -/
def fl53 (x : ℚ) : ℚ :=
  if x = 0 then 0
  else
    let e : ℤ := Int.log 2 |x|
    let m : ℤ := rhe (|x| * (2:ℚ) ^ ((52:ℤ) - e))
    (if x < 0 then -1 else 1) * (m : ℚ) * (2:ℚ) ^ (e - 52)

/-- Binary64 addition: exact sum, then one rounding. -/
def flAdd (a b : ℚ) : ℚ := fl53 (a + b)

/-- Binary64 multiplication: exact product, then one rounding. -/
def flMul (a b : ℚ) : ℚ := fl53 (a * b)

/-- Binary64 division: exact quotient, then one rounding. -/
def flDiv (a b : ℚ) : ℚ := fl53 (a / b)

/-- `YotspotScraper._calculate_quality_score` under binary64 float
semantics: the literals `0.6`, `0.2`, `0.1` denote the doubles nearest
them (`fl53 (6/10)` etc.), the `sum(...)/len(...)` completeness ratio
is one float division of exact small integers, and every `+=` /
multiplication rounds once.  `min(1.0, score)` compares exactly and
rounds nothing. -/
def Yotspot.calculateQualityScoreFloat
    (title company location description url externalId : String) : ℚ :=
  let completeness : ℚ :=
    flDiv ((if title ≠ "" then (1:ℚ) else 0) + (if company ≠ "" then 1 else 0) +
           (if location ≠ "" then 1 else 0) + (if description ≠ "" then 1 else 0)) 4
  let score : ℚ := flAdd 0 (flMul completeness (fl53 (6/10)))
  let score : ℚ := if url ≠ "" ∧ externalId ≠ "" then flAdd score (fl53 (2/10)) else score
  let score : ℚ := if 200 < description.length then flAdd score (fl53 (2/10))
                   else if 100 < description.length then flAdd score (fl53 (1/10)) else score
  min 1 score

/-- `Daywork123Scraper._calculate_quality_score` under binary64 float
semantics; identical except for the 100/50 description thresholds. -/
def Daywork.calculateQualityScoreFloat
    (title company location description url externalId : String) : ℚ :=
  let completeness : ℚ :=
    flDiv ((if title ≠ "" then (1:ℚ) else 0) + (if company ≠ "" then 1 else 0) +
           (if location ≠ "" then 1 else 0) + (if description ≠ "" then 1 else 0)) 4
  let score : ℚ := flAdd 0 (flMul completeness (fl53 (6/10)))
  let score : ℚ := if url ≠ "" ∧ externalId ≠ "" then flAdd score (fl53 (2/10)) else score
  let score : ℚ := if 100 < description.length then flAdd score (fl53 (2/10))
                   else if 50 < description.length then flAdd score (fl53 (1/10)) else score
  min 1 score

/-- The priority order the specification prescribes for employment-type
detection (spec section 4.2: "daywork-like terms first, then rotational,
seasonal, contract/temporary, else permanent"), stated as its own
function so the two scraper detectors can be compared against it. -/
def specEmploymentPriority (text : String) : EmploymentType :=
  let l := strLower text
  if anyContained l ["daywork", "day work", "daily"] then .daywork
  else if anyContained l ["rotational", "rotation"] then .rotational
  else if anyContained l ["seasonal", "season"] then .seasonal
  else if anyContained l ["contract", "temporary"] then .temporary
  else .permanent

/-! ## Date parsing

Timestamps are `Int` seconds.  `daySecs` is one `timedelta(days=1)`. -/

def daySecs : Int := 86400

/-- Value of a digit run, as in `int(match.group(1))`. -/
def digitsToNat (ds : List Char) : Nat :=
  ds.foldl (fun n c => n * 10 + (c.toNat - '0'.toNat)) 0

/-- Maximal leading digit run of `l` plus the rest, or `none` when `l`
does not start with a digit.  Models a greedy `\d+` at the current
position. -/
def digitRun (l : List Char) : Option (Nat × List Char) :=
  let ds := l.takeWhile (·.isDigit)
  if ds.isEmpty then none else some (digitsToNat ds, l.dropWhile (·.isDigit))

/-- `\s+`: at least one whitespace character, maximally consumed. -/
def wsRun (l : List Char) : Option (List Char) :=
  let ws := l.takeWhile (·.isWhitespace)
  if ws.isEmpty then none else some (l.dropWhile (·.isWhitespace))

/-- A match of `(\d+)\s+days?` anchored at the current position;
the optional `s` never affects the captured group. -/
def daysMatchAt (l : List Char) : Option Nat := do
  let (n, r1) ← digitRun l
  let r2 ← wsRun r1
  if needleIsAt ['d', 'a', 'y'] r2 then some n else none

/-- `re.search(r'(\d+)\s+days?', s)`: leftmost match wins. -/
def findDaysMatch : List Char → Option Nat
  | [] => none
  | h :: t => (daysMatchAt (h :: t)).orElse (fun _ => findDaysMatch t)

/-- `re.sub(r'(\d+)(st|nd|rd|th)', r'\1', ...)`: drop an ordinal suffix
that directly follows a digit run, then resume scanning after it.
`prevDigit` records whether the previous kept character was a digit. -/
def dropOrdinals (prevDigit : Bool) : List Char → List Char
  | [] => []
  | [a] => [a]
  | a :: b :: rest =>
    if prevDigit && ((a == 's' && b == 't') || (a == 'n' && b == 'd') ||
                     (a == 'r' && b == 'd') || (a == 't' && b == 'h')) then
      dropOrdinals false rest
    else
      a :: dropOrdinals a.isDigit (b :: rest)

/-- Gregorian leap year, as validated by `datetime`. -/
def isLeap (y : Nat) : Bool :=
  y % 4 == 0 && (y % 100 != 0 || y % 400 == 0)

def daysInMonth (y m : Nat) : Nat :=
  if m == 2 then (if isLeap y then 29 else 28)
  else if m == 4 || m == 6 || m == 9 || m == 11 then 30
  else 31

/-- Days from the Unix epoch to civil date `y-m-d` (valid Gregorian
date, `y ≥ 1`); the standard days-from-civil computation. -/
def daysFromCivil (y m d : Nat) : Int :=
  let y' : Nat := if m ≤ 2 then y - 1 else y
  let era : Nat := y' / 400
  let yoe : Nat := y' - era * 400
  let mp : Nat := if 2 < m then m - 3 else m + 9
  let doy : Nat := (153 * mp + 2) / 5 + (d - 1)
  let doe : Nat := yoe * 365 + yoe / 4 - yoe / 100 + doy
  (era : Int) * 146097 + (doe : Int) - 719468

/-- CPython `%b` month abbreviations, lower case (the input was already
lower-cased before the `strptime` branch is reached). -/
def monthAbbr (s : String) : Option Nat :=
  match s with
  | "jan" => some 1 | "feb" => some 2 | "mar" => some 3 | "apr" => some 4
  | "may" => some 5 | "jun" => some 6 | "jul" => some 7 | "aug" => some 8
  | "sep" => some 9 | "oct" => some 10 | "nov" => some 11 | "dec" => some 12
  | _ => none

def allDigits (s : String) : Bool := s.toList.all (·.isDigit)

/-- `datetime.strptime(s, '%d %b %Y')` followed by the `datetime`
validity check, returning epoch seconds of midnight of that date.
`%d` accepts one or two digits valued 1..31 (CPython rejects `00`),
`%b` a month abbreviation, `%Y` exactly four digits; whitespace in the
format matches a nonempty whitespace run; any leftover text raises
`ValueError` (here: `none`).  The `datetime` constructor then rejects a
day beyond the month length and year 0. -/
def strptimeDMY (s : String) : Option Int :=
  match wsTokens s.toList with
  | [dTok, mTok, yTok] => do
    if !(allDigits dTok) || dTok.length == 0 || 2 < dTok.length then none
    let d := digitsToNat dTok.toList
    if d == 0 || 31 < d then none
    let m ← monthAbbr mTok
    if !(allDigits yTok) || yTok.length ≠ 4 then none
    let y := digitsToNat yTok.toList
    if y == 0 then none
    if daysInMonth y m < d then none
    some (daysFromCivil y m d * daySecs)
  | _ => none

namespace LegacyYotspot

/-- `YotspotScraper._normalize_date` of the legacy `yotspot_scraper.py`
(lines 85-97), relative to the reference instant `now`
(`datetime.now()`): empty text and text that fails every parse map to
the sentinel `now - 999 days`; "today"/hour-strings map to `now`;
"yesterday" to `now - 1 day`; `(\d+)\s+days?` to `now - n days`;
otherwise `strptime '%d %b %Y'` after stripping ordinal suffixes. -/
def normalizeDate (now : Int) (dateStr : String) : Int :=
  if dateStr = "" then now - 999 * daySecs
  else
    let s := strTrim (strRemoveAll (strLower dateStr) "posted ")
    if strContains s "today" || strContains s "hour" then now
    else if strContains s "yesterday" then now - 1 * daySecs
    else
      match findDaysMatch s.toList with
      | some n => now - (n : Int) * daySecs
      | none =>
        let cleaned : String := ⟨dropOrdinals false s.toList⟩
        match strptimeDMY cleaned with
        | some t => t
        | none => now - 999 * daySecs

end LegacyYotspot

namespace Yotspot

/-- `YotspotScraper._parse_date` of `app/scrapers/yotspot.py`
(lines 206-215).  `dp` stands for the external `dateparser.parse`
library call, which returns `None` (here `none`) on text it cannot
parse; the `except` branch of the source fires only when the import or
the call itself raises, which is not modelled.  Falsy (empty) input
short-circuits to `None` before `dateparser` is consulted. -/
def parseDate (dp : String → Option Int) (dateText : String) : Option Int :=
  if dateText = "" then none
  else dp dateText

end Yotspot

/-! ## `UniversalJob` (`app/scrapers/base.py` lines 41-86)

The pydantic model with its field validators.  Fields no claim touches
(`country`, `region`, `vessel_size`, `vessel_name`, `position_level`,
`salary_currency`, `salary_period`, `start_date`, `requirements`,
`benefits`, `scraped_at`, `raw_data`) are omitted; none of them carries
a validator beyond optionality.  Classification fields are carried as
their enum type; with `use_enum_values = True` their runtime value is
the enum's string, produced by `toStr` at the store boundary. -/

structure JobCandidate where
  external_id : String
  title : String
  company : String
  source : JobSource
  source_url : String
  location : String
  vessel_type : Option VesselType
  employment_type : Option EmploymentType
  department : Option Department
  salary_range : Option String
  description : String
  posted_date : Option Int
  quality_score : ℚ
  deriving DecidableEq, Repr

/-- Simplified model of pydantic `HttpUrl`: an http(s) scheme followed
by a nonempty remainder.  (The real validator also checks the host part;
no claim depends on that.) -/
def validHttpUrl (s : String) : Bool :=
  (strStarts s "http://" && 7 < s.length) || (strStarts s "https://" && 8 < s.length)

/-- A validated job record; construction goes through `mkUniversalJob`. -/
structure UniversalJob where
  external_id : String
  title : String
  company : String
  source : JobSource
  source_url : String
  location : String
  vessel_type : Option VesselType
  employment_type : Option EmploymentType
  department : Option Department
  salary_range : Option String
  description : String
  posted_date : Option Int
  quality_score : ℚ
  deriving DecidableEq, Repr

/-- Pydantic validation at `UniversalJob(...)` construction
(`app/scrapers/base.py`): `title` 3..200 characters, `company` and
`location` at most 100, `description` at least 10, `quality_score` in
[0,1], `source_url` a valid HTTP url.  A violation raises
`ValidationError` (here `Except.error`). -/
def mkUniversalJob (c : JobCandidate) : Except String UniversalJob :=
  if c.title.length < 3 then .error "title too short"
  else if 200 < c.title.length then .error "title too long"
  else if 100 < c.company.length then .error "company too long"
  else if 100 < c.location.length then .error "location too long"
  else if c.description.length < 10 then .error "description too short"
  else if ¬ validHttpUrl c.source_url then .error "invalid url"
  else if c.quality_score < 0 then .error "quality_score below 0"
  else if 1 < c.quality_score then .error "quality_score above 1"
  else .ok ⟨c.external_id, c.title, c.company, c.source, c.source_url,
            c.location, c.vessel_type, c.employment_type, c.department,
            c.salary_range, c.description, c.posted_date, c.quality_score⟩

/-! ## Yotspot extraction and page loop (`app/scrapers/yotspot.py`) -/

namespace Yotspot

def baseUrl : String := "https://www.yotspot.com"

/-- One already-parsed job card, as `_extract_job_data` reads it:
the title link (stripped text and href) of `div.job-item__position a`
when present, and the stripped texts of the `ul.job-item__info` items.
DOM mechanics are out of scope; the card starts at what the selectors
deliver. -/
structure Card where
  titleLink : Option (String × String)
  infoItems : List String
  deriving DecidableEq, Repr

/-- The raw field dict produced by `_extract_job_data`. -/
structure RawJob where
  title : String
  url : String
  company : String
  location : String
  jobType : Option String
  postedDate : Option Int
  salary : Option String
  description : String
  externalId : String
  deriving DecidableEq, Repr

/-- `urljoin(base_url, href)` for the base without a path: empty href
keeps the base, absolute hrefs win, relative ones are attached at the
root. -/
def urljoinM (base href : String) : String :=
  if href = "" then base
  else if strStarts href "http" then href
  else if strStarts href "/" then base ++ href
  else base ++ "/" ++ href

/-- `_extract_job_id` (`app/scrapers/yotspot.py` lines 199-204):
`re.search(r'/jobs/(\d+)', url)`, returning the digits on a match and
the whole url otherwise (empty url gives `""`). -/
def extractJobId (url : String) : String :=
  if url = "" then ""
  else match go url.toList with
    | some ds => ⟨ds⟩
    | none => url
where
  /-- leftmost occurrence of `/jobs/` followed by at least one digit -/
  go : List Char → Option (List Char)
    | [] => none
    | h :: t =>
      if needleIsAt "/jobs/".toList (h :: t) then
        let after := (h :: t).drop 6
        let ds := after.takeWhile (·.isDigit)
        if ds.isEmpty then go t else some ds
      else go t

/-- `_extract_job_data` (`app/scrapers/yotspot.py` lines 120-197): fail
soft (`none`) when the position link is missing, otherwise assemble the
raw dict — company hardcoded "Yotspot", location from the first info
item carrying a location keyword (else "Unknown"), job type / posted
date / salary from the first info item carrying their indicator words,
description set to the title, external id from the url.  `dp` is the
`dateparser` oracle used by `_parse_date`. -/
def extractJobData (dp : String → Option Int) (c : Card) : Option RawJob :=
  match c.titleLink with
  | none => none
  | some (t, href) =>
    let url := urljoinM baseUrl href
    let location :=
      match c.infoItems.find? (fun it =>
        anyContained (strLower it) ["miami", "fort lauderdale", "caribbean", "mediterranean", "europe"]) with
      | some it => it
      | none => "Unknown"
    let jobType := c.infoItems.find? (fun it =>
      anyContained (strLower it) ["permanent", "temporary", "contract", "seasonal"])
    let postedItem := c.infoItems.find? (fun it =>
      strContains (strLower it) "posted" ||
      anyContained (strLower it) ["2024", "2025", "jan", "feb", "mar", "apr", "may", "jun",
                               "jul", "aug", "sep", "oct", "nov", "dec"])
    let posted : Option Int :=
      match postedItem with
      | some it => parseDate dp it
      | none => none
    let salary := c.infoItems.find? (fun it =>
      anyContained (strLower it) ["eur", "usd", "gbp", "€", "$", "£"])
    some { title := t, url := url, company := "Yotspot", location := location,
           jobType := jobType, postedDate := posted, salary := salary,
           description := t, externalId := extractJobId url }

/-- `_normalize_job` (`app/scrapers/yotspot.py` lines 217-246): run the
detectors and the quality score over the raw dict, then construct the
pydantic `UniversalJob` — which raises (`Except.error`) on a validation
failure. -/
def normalizeJob (raw : RawJob) : Except String UniversalJob :=
  mkUniversalJob
    { external_id := raw.externalId
      title := raw.title
      company := raw.company
      source := .yotspot
      source_url := raw.url
      location := raw.location
      vessel_type := some (detectVesselType raw.description)
      employment_type := some (detectEmploymentType raw.jobType)
      department := some (detectDepartment raw.title)
      salary_range := raw.salary
      description := raw.description
      posted_date := raw.postedDate
      quality_score := calculateQualityScore raw.title raw.company raw.location
                         raw.description raw.url raw.externalId }

/-- The per-page yield loop of `scrape_jobs` (`app/scrapers/yotspot.py`
lines 52-63): each extracted record is normalized and yielded in turn;
an exception from `_normalize_job` is caught by the page-level handler,
which `continue`s to the next page — so the records of the same page
after the failing one are dropped. -/
def yieldUntilError : List RawJob → List UniversalJob
  | [] => []
  | r :: rs =>
    match normalizeJob r with
    | .ok j => j :: yieldUntilError rs
    | .error _ => []

/-- One page of `scrape_jobs`: extraction fail-softs (`none` cards are
skipped by `if job_data:`), then the yield loop. -/
def processPage (dp : String → Option Int) (cards : List Card) : List UniversalJob :=
  yieldUntilError (cards.filterMap (extractJobData dp))

/-- `scrape_jobs` over already-fetched pages (network mechanics out of
scope): pages are processed in order; a page-level exception only
skips the remainder of that page. -/
def scrapeJobs (dp : String → Option Int) (pages : List (List Card)) : List UniversalJob :=
  (pages.map (processPage dp)).flatten

end Yotspot

/-! ## The deduplicating upsert store
(`app/models.py`, `app/services/scraping_service.py`, `app/database.py`)

A `Row` is a row of the `jobs` table with the columns `_save_jobs`
touches.  The surrogate primary key `id` (`str(uuid.uuid4())` in the
source) is modelled by a fresh counter carried in the store state; its
collision-freeness is the model of uuid4.  With `use_enum_values = True`
on `UniversalJob` the classification attributes read by `_save_jobs`
are plain strings, and `job.source` is a `str`-valued enum; `JobInput`
therefore carries strings, which also lets store-level properties be
stated for arbitrary source names.

Session semantics (`app/database.py`: `autoflush=False`,
`autocommit=False`): a query inside the batch sees the table rows —
including in-batch attribute updates to those loaded rows, via the
identity map — but never the still-pending inserts; all pending work is
flushed by the single `db.commit()` at the end of the batch, where the
schema constraints of `app/models.py` are enforced.  `external_id` is
declared `unique=True` on its own (`app/models.py` line 10), so a
commit producing two rows with one external id fails; `_save_jobs`
then rolls the whole batch back and returns `(0, 0)`
(`scraping_service.py` lines 155-160). -/

/-- One row of the `jobs` table (the columns `_save_jobs` reads or
writes). -/
structure Row where
  id : Nat
  external_id : String
  title : String
  company : String
  location : String
  description : String
  source : String
  source_url : String
  salary_range : Option String
  employment_type : Option String
  department : Option String
  vessel_type : Option String
  posted_date : Option Int
  quality_score : ℚ
  created_at : Int
  updated_at : Int
  deriving DecidableEq, Repr

/-- The attributes of an incoming job that `_save_jobs` reads. -/
structure JobInput where
  external_id : String
  title : String
  company : String
  location : String
  description : String
  source : String
  source_url : String
  salary_range : Option String
  employment_type : Option String
  department : Option String
  vessel_type : Option String
  posted_date : Option Int
  quality_score : ℚ
  deriving DecidableEq, Repr

/-- Store state: committed rows plus the uuid freshness counter. -/
structure DB where
  rows : List Row
  nextId : Nat
  deriving DecidableEq, Repr

def emptyDB : DB := ⟨[], 0⟩

/-- The filter of the dedup query (`scraping_service.py` lines 110-113):
`Job.external_id == job.external_id, Job.source == job.source`. -/
def keyMatch (j : JobInput) (r : Row) : Bool :=
  r.external_id == j.external_id && r.source == j.source

/-- The update branch (`scraping_service.py` lines 115-126): overwrite
title, company, location, description, salary_range, employment_type,
department, vessel_type, quality_score and stamp `updated_at`;
`id`, `external_id`, `source`, `source_url`, `posted_date` and
`created_at` are not touched. -/
def applyUpdate (r : Row) (j : JobInput) (now : Int) : Row :=
  { r with title := j.title, company := j.company, location := j.location,
           description := j.description, salary_range := j.salary_range,
           employment_type := j.employment_type, department := j.department,
           vessel_type := j.vessel_type, quality_score := j.quality_score,
           updated_at := now }

/-- The insert branch (`scraping_service.py` lines 129-149): a fresh
surrogate id, all fields from the incoming job,
`created_at = updated_at = now`. -/
def mkRow (id : Nat) (j : JobInput) (now : Int) : Row :=
  { id := id, external_id := j.external_id, title := j.title,
    company := j.company, location := j.location, description := j.description,
    source := j.source, source_url := j.source_url,
    salary_range := j.salary_range, employment_type := j.employment_type,
    department := j.department, vessel_type := j.vessel_type,
    posted_date := j.posted_date, quality_score := j.quality_score,
    created_at := now, updated_at := now }

/-- Mutate the first row matching `p` (what assigning attributes on the
object returned by `.first()` does to the table image). -/
def replaceFirstMatch (p : Row → Bool) (f : Row → Row) : List Row → List Row
  | [] => []
  | r :: rs => if p r then f r :: rs else r :: replaceFirstMatch p f rs

/-- In-flight state of one `_save_jobs` batch: the table image with
in-batch updates applied (`persistent`), the pending inserts
(`pending`, invisible to queries under `autoflush=False`), the uuid
counter, and the two counters the function returns. -/
structure SaveState where
  persistent : List Row
  pending : List Row
  nextId : Nat
  newCount : Nat
  updCount : Nat
  deriving Repr

/-- The loop body of `_save_jobs` (`scraping_service.py` lines 107-153)
for one job: query by `(external_id, source)` against the visible rows;
on a hit mutate that row, on a miss add a pending insert. -/
def processJob (now : Int) (st : SaveState) (j : JobInput) : SaveState :=
  match st.persistent.find? (keyMatch j) with
  | some _ =>
    { st with persistent := replaceFirstMatch (keyMatch j) (fun r => applyUpdate r j now) st.persistent,
              updCount := st.updCount + 1 }
  | none =>
    { st with pending := st.pending ++ [mkRow st.nextId j now],
              nextId := st.nextId + 1,
              newCount := st.newCount + 1 }

/-- `ScrapingService._save_jobs` (`scraping_service.py` lines 101-162):
process the batch in order, then `db.commit()`.  The commit enforces
the `unique=True` constraint on `external_id` (`app/models.py` line 10);
on violation the whole batch is rolled back and `(0, 0)` reported. -/
def saveJobs (db : DB) (now : Int) (jobs : List JobInput) : DB × Nat × Nat :=
  let st := jobs.foldl (processJob now) ⟨db.rows, [], db.nextId, 0, 0⟩
  let rows := st.persistent ++ st.pending
  if (rows.map Row.external_id).Nodup then
    (⟨rows, st.nextId⟩, st.newCount, st.updCount)
  else
    (db, 0, 0)

/-- A sequence of scrape runs, each a timestamp and the batch it saves
(`scrape_source` collects a source's jobs and hands them to
`_save_jobs` as one batch). -/
def runAll (db : DB) (runs : List (Int × List JobInput)) : DB :=
  runs.foldl (fun d r => (saveJobs d r.1 r.2).1) db

/-- No two rows share the natural key `(source, external_id)`. -/
def natKeysDistinct (rows : List Row) : Prop :=
  rows.Pairwise (fun a b => ¬(a.external_id = b.external_id ∧ a.source = b.source))

/-- The natural key of a row. -/
def keyPair (r : Row) : String × String := (r.external_id, r.source)

/-! ## Concrete instances used by the scenario theorems -/

/-- The spec's end-to-end example: source "acme", external id "123",
first observed with title "Deckhand". -/
def jobDeckhand : JobInput where
  external_id := "123"
  title := "Deckhand"
  company := "Acme Crew"
  location := "Palma"
  description := "Deckhand needed on a motor yacht"
  source := "acme"
  source_url := "https://acme.example/jobs/123"
  salary_range := none
  employment_type := some "permanent"
  department := some "deck"
  vessel_type := some "motor_yacht"
  posted_date := none
  quality_score := 1

/-- The second observation of the same natural key, retitled. -/
def jobSeniorDeckhand : JobInput := { jobDeckhand with title := "Senior Deckhand" }

/-- Same external id "777" seen from two different sources. -/
def jobYot777 : JobInput := { jobDeckhand with source := "yotspot", external_id := "777" }

def jobDay777 : JobInput := { jobDeckhand with source := "daywork123", external_id := "777" }

/-- The store after the yotspot record was committed. -/
def c2StoreAfterFirst : DB := (saveJobs emptyDB 10 [jobYot777]).1

/-- An existing committed row whose external id "E3" belongs to source
"daywork123". -/
def c7Existing : Row := mkRow 0 { jobDeckhand with source := "daywork123", external_id := "E3" } 5

def c7DB : DB := ⟨[c7Existing], 1⟩

def c7Job (e : String) : JobInput := { jobDeckhand with source := "yotspot", external_id := e }

/-- A batch of five records whose third one collides with the committed
external id "E3" (its source differs, so the dedup lookup misses and an
insert is attempted). -/
def c7Batch : List JobInput := [c7Job "E1", c7Job "E2", c7Job "E3", c7Job "E4", c7Job "E5"]

/-- A store holding the key ("acme","123"), for the update scenarios. -/
def c8Row : Row := mkRow 0 jobDeckhand 10

def c8DB : DB := ⟨[c8Row], 1⟩

/-- A `dateparser` oracle that parses nothing (the scenario pages carry
no machine-readable dates, so its answers are never used). -/
def dpNone : String → Option Int := fun _ => none

/-- A well-formed card: position link with text and href, info items
with location, type, posted-date and salary entries. -/
def cardGood1 : Yotspot.Card :=
  ⟨some ("Senior Deckhand Wanted", "/jobs/101"),
   ["Mediterranean", "Permanent", "Posted 2 days ago", "€3000 per month"]⟩

/-- A card whose position link text is empty after stripping: extraction
returns it, and normalization then fails pydantic's `min_length=3`. -/
def cardEmptyTitle : Yotspot.Card := ⟨some ("", "/jobs/102"), []⟩

/-- A second well-formed card, after the malformed one. -/
def cardGood2 : Yotspot.Card := ⟨some ("Chief Stewardess Position", "/jobs/103"), ["Caribbean"]⟩

/-- A card with no position link at all: extraction fail-softs. -/
def cardNoTitle : Yotspot.Card := ⟨none, ["Mediterranean"]⟩

/-- What `_extract_job_data` produces from `cardGood1`. -/
def rawGood1 : Yotspot.RawJob where
  title := "Senior Deckhand Wanted"
  url := "https://www.yotspot.com/jobs/101"
  company := "Yotspot"
  location := "Mediterranean"
  jobType := some "Permanent"
  postedDate := none
  salary := some "€3000 per month"
  description := "Senior Deckhand Wanted"
  externalId := "101"

/-- What `_extract_job_data` produces from `cardEmptyTitle`. -/
def rawEmptyTitle : Yotspot.RawJob where
  title := ""
  url := "https://www.yotspot.com/jobs/102"
  company := "Yotspot"
  location := "Unknown"
  jobType := none
  postedDate := none
  salary := none
  description := ""
  externalId := "102"

/-- What `_extract_job_data` produces from `cardGood2`. -/
def rawGood2 : Yotspot.RawJob where
  title := "Chief Stewardess Position"
  url := "https://www.yotspot.com/jobs/103"
  company := "Yotspot"
  location := "Caribbean"
  jobType := none
  postedDate := none
  salary := none
  description := "Chief Stewardess Position"
  externalId := "103"

/-- The normalized job for `cardGood1`. -/
def c3Job1 : UniversalJob where
  external_id := "101"
  title := "Senior Deckhand Wanted"
  company := "Yotspot"
  source := .yotspot
  source_url := "https://www.yotspot.com/jobs/101"
  location := "Mediterranean"
  vessel_type := some .motor_yacht
  employment_type := some .permanent
  department := some .deck
  salary_range := some "€3000 per month"
  description := "Senior Deckhand Wanted"
  posted_date := none
  quality_score := 4/5

/-- The normalized job for `cardGood2`. -/
def c3Job2 : UniversalJob where
  external_id := "103"
  title := "Chief Stewardess Position"
  company := "Yotspot"
  source := .yotspot
  source_url := "https://www.yotspot.com/jobs/103"
  location := "Caribbean"
  vessel_type := some .motor_yacht
  employment_type := some .permanent
  department := some .interior
  salary_range := none
  description := "Chief Stewardess Position"
  posted_date := none
  quality_score := 4/5

/-- A candidate satisfying every pydantic bound. -/
def c10Good : JobCandidate where
  external_id := "j1"
  title := "Deckhand"
  company := "Acme Crew"
  source := .yotspot
  source_url := "https://www.yotspot.com/jobs/1"
  location := "Palma"
  vessel_type := none
  employment_type := none
  department := none
  salary_range := none
  description := "Deckhand wanted now"
  posted_date := none
  quality_score := 0

/-- The record `mkUniversalJob` builds from `c10Good`. -/
def c10GoodJob : UniversalJob where
  external_id := "j1"
  title := "Deckhand"
  company := "Acme Crew"
  source := .yotspot
  source_url := "https://www.yotspot.com/jobs/1"
  location := "Palma"
  vessel_type := none
  employment_type := none
  department := none
  salary_range := none
  description := "Deckhand wanted now"
  posted_date := none
  quality_score := 0

/-- The same candidate with a 2-character title. -/
def c10BadTitle : JobCandidate := { c10Good with title := "ab" }

/-- The same candidate with a 5-character description. -/
def c10BadDesc : JobCandidate := { c10Good with description := "short" }

/-! ## Helper lemmas about the store model -/

theorem replaceFirstMatch_map_eq {β : Type} (p : Row → Bool) (f : Row → Row) (g : Row → β)
    (hf : ∀ r, g (f r) = g r) : ∀ l : List Row, (replaceFirstMatch p f l).map g = l.map g := by
  intro l
  induction l with
  | nil => rfl
  | cons r rs ih =>
    by_cases h : p r
    · simp [replaceFirstMatch, h, hf]
    · simp [replaceFirstMatch, h, ih]

theorem replaceFirstMatch_length (p : Row → Bool) (f : Row → Row) :
    ∀ l : List Row, (replaceFirstMatch p f l).length = l.length := by
  intro l
  induction l with
  | nil => rfl
  | cons r rs ih =>
    by_cases h : p r
    · simp [replaceFirstMatch, h]
    · simp [replaceFirstMatch, h, ih]

theorem mem_replaceFirstMatch_of_find? (p : Row → Bool) (f : Row → Row) :
    ∀ l : List Row, l.find? p = some r → f r ∈ replaceFirstMatch p f l := by
  intro l
  induction l with
  | nil => intro h; simp [List.find?] at h
  | cons a t ih =>
    intro h
    by_cases hp : p a
    · rw [List.find?_cons_of_pos _ hp] at h
      obtain rfl : a = r := by injection h
      simp [replaceFirstMatch, hp]
    · rw [List.find?_cons_of_neg _ hp] at h
      simp only [replaceFirstMatch, hp, Bool.false_eq_true, if_false]
      exact List.mem_cons_of_mem _ (ih h)

theorem keyPair_applyUpdate (r : Row) (j : JobInput) (now : Int) :
    keyPair (applyUpdate r j now) = keyPair r := rfl

/-- A batch step never changes the key image of the table rows: updates
mutate non-key fields in place, inserts go to the pending list. -/
theorem processJob_persistent_keys (now : Int) (st : SaveState) (j : JobInput) :
    ((processJob now st j).persistent).map keyPair = st.persistent.map keyPair := by
  unfold processJob
  cases hfind : st.persistent.find? (keyMatch j) with
  | none => rfl
  | some r =>
    exact replaceFirstMatch_map_eq (keyMatch j) (fun r => applyUpdate r j now) keyPair
      (fun r => rfl) st.persistent

theorem foldl_persistent_keys (now : Int) :
    ∀ (jobs : List JobInput) (st : SaveState),
      ((jobs.foldl (processJob now) st).persistent).map keyPair = st.persistent.map keyPair := by
  intro jobs
  induction jobs with
  | nil => intro st; rfl
  | cons j js ih =>
    intro st
    rw [List.foldl_cons, ih, processJob_persistent_keys]

theorem processJob_pending_mono (now : Int) (st : SaveState) (j : JobInput)
    (x : Row) (hx : x ∈ st.pending) : x ∈ (processJob now st j).pending := by
  unfold processJob
  cases hfind : st.persistent.find? (keyMatch j) with
  | none => exact List.mem_append_left _ hx
  | some r => exact hx

theorem foldl_pending_mono (now : Int) :
    ∀ (jobs : List JobInput) (st : SaveState) (x : Row),
      x ∈ st.pending → x ∈ (jobs.foldl (processJob now) st).pending := by
  intro jobs
  induction jobs with
  | nil => intro st x hx; exact hx
  | cons j js ih =>
    intro st x hx
    rw [List.foldl_cons]
    exact ih _ _ (processJob_pending_mono now st j x hx)

/-- `keyMatch` decoded into propositional equalities. -/
theorem keyMatch_eq {j : JobInput} {r : Row} (h : keyMatch j r = true) :
    r.external_id = j.external_id ∧ r.source = j.source := by
  unfold keyMatch at h
  rw [Bool.and_eq_true] at h
  exact ⟨eq_of_beq h.1, eq_of_beq h.2⟩

/-- A successful commit leaves pairwise-distinct external ids; a failed
one leaves the store untouched. -/
theorem saveJobs_good (db : DB) (now : Int) (jobs : List JobInput)
    (h : (db.rows.map Row.external_id).Nodup) :
    (((saveJobs db now jobs).1).rows.map Row.external_id).Nodup := by
  unfold saveJobs
  dsimp only
  split
  · next hn => exact hn
  · exact h

/-- Distinct external ids force distinct natural keys. -/
theorem natKeysDistinct_of_nodup (rows : List Row)
    (h : (rows.map Row.external_id).Nodup) : natKeysDistinct rows := by
  unfold natKeysDistinct
  unfold List.Nodup at h
  rw [List.pairwise_map] at h
  exact h.imp (fun hne hk => hne hk.1)

/-! ## Evaluation lemmas for the concrete normalization scenarios -/

theorem qs_rawGood1 :
    Yotspot.calculateQualityScore "Senior Deckhand Wanted" "Yotspot" "Mediterranean"
      "Senior Deckhand Wanted" "https://www.yotspot.com/jobs/101" "101" = 4/5 := by
  show min (1:ℚ) (((1:ℚ) + 1 + 1 + 1) / 4 * (6/10) + 2/10 + 0) = 4/5
  norm_num

theorem qs_rawGood2 :
    Yotspot.calculateQualityScore "Chief Stewardess Position" "Yotspot" "Caribbean"
      "Chief Stewardess Position" "https://www.yotspot.com/jobs/103" "103" = 4/5 := by
  show min (1:ℚ) (((1:ℚ) + 1 + 1 + 1) / 4 * (6/10) + 2/10 + 0) = 4/5
  norm_num

theorem norm_rawGood1 : Yotspot.normalizeJob rawGood1 = .ok c3Job1 := by
  show mkUniversalJob
    { external_id := "101", title := "Senior Deckhand Wanted", company := "Yotspot",
      source := .yotspot, source_url := "https://www.yotspot.com/jobs/101",
      location := "Mediterranean", vessel_type := some .motor_yacht,
      employment_type := some .permanent, department := some .deck,
      salary_range := some "€3000 per month", description := "Senior Deckhand Wanted",
      posted_date := none,
      quality_score := Yotspot.calculateQualityScore "Senior Deckhand Wanted" "Yotspot"
        "Mediterranean" "Senior Deckhand Wanted" "https://www.yotspot.com/jobs/101" "101" }
    = .ok c3Job1
  rw [qs_rawGood1]
  unfold mkUniversalJob
  rw [if_neg (show ¬ ("Senior Deckhand Wanted" : String).length < 3 by decide),
      if_neg (show ¬ 200 < ("Senior Deckhand Wanted" : String).length by decide),
      if_neg (show ¬ 100 < ("Yotspot" : String).length by decide),
      if_neg (show ¬ 100 < ("Mediterranean" : String).length by decide),
      if_neg (show ¬ ("Senior Deckhand Wanted" : String).length < 10 by decide),
      if_neg (show ¬ ¬ validHttpUrl "https://www.yotspot.com/jobs/101" = true by decide),
      if_neg (show ¬ (4:ℚ)/5 < 0 by norm_num),
      if_neg (show ¬ (1:ℚ) < 4/5 by norm_num)]
  rfl

theorem norm_rawGood2 : Yotspot.normalizeJob rawGood2 = .ok c3Job2 := by
  show mkUniversalJob
    { external_id := "103", title := "Chief Stewardess Position", company := "Yotspot",
      source := .yotspot, source_url := "https://www.yotspot.com/jobs/103",
      location := "Caribbean", vessel_type := some .motor_yacht,
      employment_type := some .permanent, department := some .interior,
      salary_range := none, description := "Chief Stewardess Position",
      posted_date := none,
      quality_score := Yotspot.calculateQualityScore "Chief Stewardess Position" "Yotspot"
        "Caribbean" "Chief Stewardess Position" "https://www.yotspot.com/jobs/103" "103" }
    = .ok c3Job2
  rw [qs_rawGood2]
  unfold mkUniversalJob
  rw [if_neg (show ¬ ("Chief Stewardess Position" : String).length < 3 by decide),
      if_neg (show ¬ 200 < ("Chief Stewardess Position" : String).length by decide),
      if_neg (show ¬ 100 < ("Yotspot" : String).length by decide),
      if_neg (show ¬ 100 < ("Caribbean" : String).length by decide),
      if_neg (show ¬ ("Chief Stewardess Position" : String).length < 10 by decide),
      if_neg (show ¬ ¬ validHttpUrl "https://www.yotspot.com/jobs/103" = true by decide),
      if_neg (show ¬ (4:ℚ)/5 < 0 by norm_num),
      if_neg (show ¬ (1:ℚ) < 4/5 by norm_num)]
  rfl

/-- The empty-after-stripping title fails pydantic's `min_length=3`
before any other check is reached. -/
theorem norm_rawEmptyTitle : Yotspot.normalizeJob rawEmptyTitle = .error "title too short" := rfl

/-! ## Claim theorems: C3 and C4 -/

/-- C3 counterexample.  One page carries a well-formed card, then a card
whose extracted title is empty after stripping, then another well-formed
card.  The claim says the malformed record is skipped without raising
and the remaining records are still normalized; in fact only the first
record survives.  The second well-formed card extracts and normalizes
fine on its own — yet it is absent from the page's yield because the
empty-title record raises a `ValidationError` that the page-level
handler turns into "skip the rest of this page". -/
theorem C3_counterexample :
    (Yotspot.scrapeJobs dpNone [[cardGood1, cardEmptyTitle, cardGood2]]).map
        (fun j => j.title) = ["Senior Deckhand Wanted"] ∧
    Yotspot.extractJobData dpNone cardGood2 = some rawGood2 ∧
    Yotspot.normalizeJob rawGood2 = .ok c3Job2 := by
  refine ⟨?_, by decide, norm_rawGood2⟩
  have hfm : [cardGood1, cardEmptyTitle, cardGood2].filterMap (Yotspot.extractJobData dpNone)
      = [rawGood1, rawEmptyTitle, rawGood2] := by decide
  simp only [Yotspot.scrapeJobs, Yotspot.processPage, List.map_cons, List.map_nil, hfm]
  simp [Yotspot.yieldUntilError, norm_rawGood1, norm_rawEmptyTitle, c3Job1]

/-- C3 amended.  A card with no title element is skipped at extraction
(`_extract_job_data` returns `None`) without affecting the rest of the
page; but a record that reaches `_normalize_job` and fails validation
raises, and the page-level handler then drops every later record of
that page. -/
theorem C3_amended_failure_modes :
    (∀ (dp : String → Option Int) (pre post : List Yotspot.Card) (c : Yotspot.Card),
        Yotspot.extractJobData dp c = none →
        Yotspot.processPage dp (pre ++ c :: post) = Yotspot.processPage dp (pre ++ post)) ∧
    (∀ (rs1 : List Yotspot.RawJob) (r : Yotspot.RawJob) (rs2 : List Yotspot.RawJob) (e : String),
        Yotspot.normalizeJob r = .error e →
        Yotspot.yieldUntilError (rs1 ++ r :: rs2) = Yotspot.yieldUntilError rs1) := by
  constructor
  · intro dp pre post c h
    simp [Yotspot.processPage, List.filterMap_append, List.filterMap_cons, h]
  · intro rs1
    induction rs1 with
    | nil =>
      intro r rs2 e h
      simp [Yotspot.yieldUntilError, h]
    | cons a t ih =>
      intro r rs2 e h
      rw [List.cons_append]
      rw [Yotspot.yieldUntilError, Yotspot.yieldUntilError]
      cases ha : Yotspot.normalizeJob a with
      | ok j => rw [ih r rs2 e h]
      | error e2 => rfl

/-- C3 witness for the amended theorem: a no-title card vanishes from a
singleton page without side effects, and an empty-title record ends its
page's yield. -/
theorem C3_witness :
    Yotspot.processPage dpNone ([] ++ cardNoTitle :: []) = Yotspot.processPage dpNone ([] ++ []) ∧
    Yotspot.yieldUntilError ([] ++ rawEmptyTitle :: []) = Yotspot.yieldUntilError [] :=
  ⟨C3_amended_failure_modes.1 dpNone [] [] cardNoTitle (by decide),
   C3_amended_failure_modes.2 [] rawEmptyTitle [] "title too short" norm_rawEmptyTitle⟩

/-- C4 counterexample.  The pluggable Yotspot scraper's `_parse_date`
returns `None` for empty (and any dateparser-unparseable) date text —
not a sentinel more than 90 days in the past.  The oracle stands for
`dateparser.parse` and is never even consulted on falsy input. -/
theorem C4_counterexample : Yotspot.parseDate (fun _ => some 0) "" = none := rfl

/-- C4 amended.  The legacy scraper's `_normalize_date` does satisfy the
claimed contract at every reference instant `T`: "2 days ago" gives
`T - 2 days`; "today", "Posted today" and hour-strings give `T`;
unparseable and empty text give the sentinel `T - 999 days`, which is
more than 90 days before `T`.  The pluggable scrapers' `_parse_date`
instead yields null for unparseable text. -/
theorem C4_amended_date_parsing (T : Int) :
    LegacyYotspot.normalizeDate T "2 days ago" = T - 2 * 86400 ∧
    LegacyYotspot.normalizeDate T "today" = T ∧
    LegacyYotspot.normalizeDate T "Posted today" = T ∧
    LegacyYotspot.normalizeDate T "0 hours ago" = T ∧
    LegacyYotspot.normalizeDate T "gibberish" = T - 999 * 86400 ∧
    LegacyYotspot.normalizeDate T "" = T - 999 * 86400 ∧
    T - 999 * 86400 < T - 90 * 86400 ∧
    Yotspot.parseDate (fun _ => some 0) "" = none := by
  refine ⟨?_, ?_, ?_, ?_, ?_, ?_, by omega, rfl⟩
  · have h : findDaysMatch (strTrim (strRemoveAll (strLower "2 days ago") "posted ")).toList
        = some 2 := by decide
    unfold LegacyYotspot.normalizeDate
    rw [if_neg (by decide : ¬("2 days ago" : String) = ""), if_neg (by decide),
        if_neg (by decide), h]
    norm_num [daySecs]
  · unfold LegacyYotspot.normalizeDate
    rw [if_neg (by decide : ¬("today" : String) = ""), if_pos (by decide)]
  · unfold LegacyYotspot.normalizeDate
    rw [if_neg (by decide : ¬("Posted today" : String) = ""), if_pos (by decide)]
  · unfold LegacyYotspot.normalizeDate
    rw [if_neg (by decide : ¬("0 hours ago" : String) = ""), if_pos (by decide)]
  · have h : findDaysMatch (strTrim (strRemoveAll (strLower "gibberish") "posted ")).toList
        = none := by decide
    have h2 : strptimeDMY ⟨dropOrdinals false
        (strTrim (strRemoveAll (strLower "gibberish") "posted ")).toList⟩ = none := by decide
    unfold LegacyYotspot.normalizeDate
    rw [if_neg (by decide : ¬("gibberish" : String) = ""), if_neg (by decide),
        if_neg (by decide), h]
    simp only [h2]
    norm_num [daySecs]
  · unfold LegacyYotspot.normalizeDate
    rw [if_pos rfl]
    norm_num [daySecs]

/-! ## Claim theorems: C5, C6, C9, C10 -/

/-! ### Rounding lemmas for the binary64 model -/

theorem int_log2_eq {x : ℚ} {e : ℤ} (hx : 0 < x) (h1 : (2:ℚ)^e ≤ x) (h2 : x < (2:ℚ)^(e+1)) :
    Int.log 2 x = e := by
  have ha : e ≤ Int.log 2 x := (Int.zpow_le_iff_le_log (by norm_num) hx).1 h1
  have hb : Int.log 2 x < e + 1 := (Int.lt_zpow_iff_log_lt (by norm_num) hx).1 h2
  omega

theorem rhe_eq_floor {q : ℚ} {f : ℤ} (hf : ⌊q⌋ = f) (h : q - f < 1/2) : rhe q = f := by
  unfold rhe; rw [hf, if_pos h]

theorem rhe_eq_ceil {q : ℚ} {f : ℤ} (hf : ⌊q⌋ = f) (h : 1/2 < q - f) : rhe q = f + 1 := by
  unfold rhe; rw [hf, if_neg (by linarith), if_pos h]

theorem rhe_tie_even {q : ℚ} {f : ℤ} (hf : ⌊q⌋ = f) (h : q - f = 1/2) (he : f % 2 = 0) :
    rhe q = f := by
  unfold rhe; rw [hf, if_neg (by rw [h]; norm_num), if_neg (by rw [h]; norm_num), if_pos he]

theorem rhe_tie_odd {q : ℚ} {f : ℤ} (hf : ⌊q⌋ = f) (h : q - f = 1/2) (ho : ¬ f % 2 = 0) :
    rhe q = f + 1 := by
  unfold rhe; rw [hf, if_neg (by rw [h]; norm_num), if_neg (by rw [h]; norm_num), if_neg ho]

/-- Evaluate one rounding: exhibit the exponent bracket and the rounded
significand. -/
theorem fl53_eval {x : ℚ} {e m : ℤ} (hx : 0 < x)
    (h1 : (2:ℚ)^e ≤ x) (h2 : x < (2:ℚ)^(e+1))
    (hm : rhe (x * (2:ℚ) ^ ((52:ℤ) - e)) = m) :
    fl53 x = (m:ℚ) * (2:ℚ)^(e - 52) := by
  unfold fl53
  rw [if_neg (ne_of_gt hx), abs_of_pos hx, int_log2_eq hx h1 h2]
  dsimp only
  rw [hm, if_neg (not_lt.2 hx.le)]
  ring

theorem rhe_nonneg {q : ℚ} (h : 0 ≤ q) : 0 ≤ rhe q := by
  have hf : (0:ℤ) ≤ ⌊q⌋ := Int.floor_nonneg.2 h
  unfold rhe
  dsimp only
  split_ifs <;> omega

theorem fl53_nonneg {x : ℚ} (h : 0 ≤ x) : 0 ≤ fl53 x := by
  rcases eq_or_lt_of_le h with heq | hpos
  · rw [← heq]
    unfold fl53
    rw [if_pos rfl]
  · unfold fl53
    rw [if_neg (ne_of_gt hpos)]
    dsimp only
    rw [if_neg (not_lt.2 h), one_mul]
    exact mul_nonneg
      (Int.cast_nonneg.2 (rhe_nonneg (mul_nonneg (abs_nonneg x)
        (le_of_lt (zpow_pos (by norm_num) _)))))
      (le_of_lt (zpow_pos (by norm_num) _))

theorem flAdd_nonneg {a b : ℚ} (ha : 0 ≤ a) (hb : 0 ≤ b) : 0 ≤ flAdd a b :=
  fl53_nonneg (add_nonneg ha hb)

theorem flMul_nonneg {a b : ℚ} (ha : 0 ≤ a) (hb : 0 ≤ b) : 0 ≤ flMul a b :=
  fl53_nonneg (mul_nonneg ha hb)

theorem flDiv_nonneg {a b : ℚ} (ha : 0 ≤ a) (hb : 0 ≤ b) : 0 ≤ flDiv a b :=
  fl53_nonneg (div_nonneg ha hb)

/-! ### The concrete binary64 values the score paths produce

Denominators are powers of two: `4503599627370496 = 2^52`,
`9007199254740992 = 2^53`, `18014398509481984 = 2^54`,
`36028797018963968 = 2^55`. -/

/-- The double nearest the literal `0.6`. -/
theorem fl53_lit06 : fl53 ((6:ℚ)/10) = 5404319552844595 / 9007199254740992 := by
  rw [fl53_eval (e := -1) (m := 5404319552844595) (by norm_num) ?h1 ?h2 ?hm]
  · rw [show ((-1:ℤ) - 52) = -(53:ℤ) by norm_num, zpow_neg]
    norm_num
  case h1 =>
    rw [show ((-1:ℤ)) = -(1:ℤ) from rfl, zpow_neg, zpow_one]
    norm_num
  case h2 => norm_num
  case hm =>
    apply rhe_eq_floor (f := 5404319552844595) <;>
      rw [show ((52:ℤ) - (-1)) = (53:ℤ) by norm_num] <;>
      rw [show ((2:ℚ)^(53:ℤ)) = 9007199254740992 by norm_num] <;>
      norm_num

/-- The double nearest the literal `0.2`. -/
theorem fl53_lit02 : fl53 ((2:ℚ)/10) = 7205759403792794 / 36028797018963968 := by
  rw [fl53_eval (e := -3) (m := 7205759403792794) (by norm_num) ?h1 ?h2 ?hm]
  · rw [show ((-3:ℤ) - 52) = -(55:ℤ) by norm_num, zpow_neg]
    norm_num
  case h1 =>
    rw [show ((-3:ℤ)) = -(3:ℤ) from rfl, zpow_neg]
    norm_num
  case h2 =>
    rw [show ((-3:ℤ) + 1) = -(2:ℤ) by norm_num, zpow_neg]
    norm_num
  case hm =>
    apply rhe_eq_ceil (f := 7205759403792793) <;>
      rw [show ((52:ℤ) - (-3)) = (55:ℤ) by norm_num] <;>
      rw [show ((2:ℚ)^(55:ℤ)) = 36028797018963968 by norm_num] <;>
      norm_num

/-- `1.0` is exactly representable. -/
theorem fl53_one : fl53 (1:ℚ) = 1 := by
  rw [fl53_eval (e := 0) (m := 4503599627370496) (by norm_num) ?h1 ?h2 ?hm]
  · rw [show ((0:ℤ) - 52) = -(52:ℤ) by norm_num, zpow_neg]
    norm_num
  case h1 => norm_num
  case h2 => norm_num
  case hm =>
    apply rhe_eq_floor (f := 4503599627370496) <;>
      rw [show ((52:ℤ) - 0) = (52:ℤ) by norm_num] <;>
      rw [show ((2:ℚ)^(52:ℤ)) = 4503599627370496 by norm_num] <;>
      norm_num

/-- `0.75` (the 3-of-4 completeness ratio) is exactly representable. -/
theorem fl53_34 : fl53 ((3:ℚ)/4) = 3/4 := by
  rw [fl53_eval (e := -1) (m := 6755399441055744) (by norm_num) ?h1 ?h2 ?hm]
  · rw [show ((-1:ℤ) - 52) = -(53:ℤ) by norm_num, zpow_neg]
    norm_num
  case h1 =>
    rw [show ((-1:ℤ)) = -(1:ℤ) from rfl, zpow_neg, zpow_one]
    norm_num
  case h2 => norm_num
  case hm =>
    apply rhe_eq_floor (f := 6755399441055744) <;>
      rw [show ((52:ℤ) - (-1)) = (53:ℤ) by norm_num] <;>
      rw [show ((2:ℚ)^(53:ℤ)) = 9007199254740992 by norm_num] <;>
      norm_num

/-- `0.75 * 0.6` in doubles: the exact product needs 54 significand
bits, and the tie rounds to even — Python shows this value as
`0.44999999999999996`. -/
theorem flMul_34_06 :
    flMul ((3:ℚ)/4) (5404319552844595 / 9007199254740992)
      = 8106479329266892 / 18014398509481984 := by
  unfold flMul
  rw [show ((3:ℚ)/4) * (5404319552844595 / 9007199254740992)
        = 16212958658533785 / 36028797018963968 by norm_num]
  rw [fl53_eval (e := -2) (m := 8106479329266892) (by norm_num) ?h1 ?h2 ?hm]
  · rw [show ((-2:ℤ) - 52) = -(54:ℤ) by norm_num, zpow_neg]
    norm_num
  case h1 =>
    rw [show ((-2:ℤ)) = -(2:ℤ) from rfl, zpow_neg]
    norm_num
  case h2 =>
    rw [show ((-2:ℤ) + 1) = -(1:ℤ) by norm_num, zpow_neg, zpow_one]
    norm_num
  case hm =>
    refine rhe_tie_even (f := 8106479329266892) ?_ ?_ (by norm_num) <;>
      rw [show ((52:ℤ) - (-2)) = (54:ℤ) by norm_num] <;>
      rw [show ((2:ℚ)^(54:ℤ)) = 18014398509481984 by norm_num] <;>
      norm_num

/-- Rounding is the identity on the double `0.75 * 0.6` (for the
`score += ...` step, whose left operand is `0.0`). -/
theorem fl53_idem_P1 :
    fl53 ((8106479329266892:ℚ) / 18014398509481984) = 8106479329266892 / 18014398509481984 := by
  rw [fl53_eval (e := -2) (m := 8106479329266892) (by norm_num) ?h1 ?h2 ?hm]
  · rw [show ((-2:ℤ) - 52) = -(54:ℤ) by norm_num, zpow_neg]
    norm_num
  case h1 =>
    rw [show ((-2:ℤ)) = -(2:ℤ) from rfl, zpow_neg]
    norm_num
  case h2 =>
    rw [show ((-2:ℤ) + 1) = -(1:ℤ) by norm_num, zpow_neg, zpow_one]
    norm_num
  case hm =>
    apply rhe_eq_floor (f := 8106479329266892) <;>
      rw [show ((52:ℤ) - (-2)) = (54:ℤ) by norm_num] <;>
      rw [show ((2:ℚ)^(54:ℤ)) = 18014398509481984 by norm_num] <;>
      norm_num

/-- Rounding is the identity on the double `0.6`. -/
theorem fl53_idem_06 :
    fl53 ((5404319552844595:ℚ) / 9007199254740992) = 5404319552844595 / 9007199254740992 := by
  rw [fl53_eval (e := -1) (m := 5404319552844595) (by norm_num) ?h1 ?h2 ?hm]
  · rw [show ((-1:ℤ) - 52) = -(53:ℤ) by norm_num, zpow_neg]
    norm_num
  case h1 =>
    rw [show ((-1:ℤ)) = -(1:ℤ) from rfl, zpow_neg, zpow_one]
    norm_num
  case h2 => norm_num
  case hm =>
    apply rhe_eq_floor (f := 5404319552844595) <;>
      rw [show ((52:ℤ) - (-1)) = (53:ℤ) by norm_num] <;>
      rw [show ((2:ℚ)^(53:ℤ)) = 9007199254740992 by norm_num] <;>
      norm_num

/-- `(0.75 * 0.6) + 0.2` in doubles: another round-to-even tie — the
result is `0.6499999999999999`, NOT `0.65`: `score * 100` is not an
integer here. -/
theorem flAdd_P1_02 :
    flAdd ((8106479329266892:ℚ) / 18014398509481984) (7205759403792794 / 36028797018963968)
      = 5854679515581644 / 9007199254740992 := by
  unfold flAdd
  rw [show ((8106479329266892:ℚ) / 18014398509481984) + (7205759403792794 / 36028797018963968)
        = 11709359031163289 / 18014398509481984 by norm_num]
  rw [fl53_eval (e := -1) (m := 5854679515581644) (by norm_num) ?h1 ?h2 ?hm]
  · rw [show ((-1:ℤ) - 52) = -(53:ℤ) by norm_num, zpow_neg]
    norm_num
  case h1 =>
    rw [show ((-1:ℤ)) = -(1:ℤ) from rfl, zpow_neg, zpow_one]
    norm_num
  case h2 => norm_num
  case hm =>
    refine rhe_tie_even (f := 5854679515581644) ?_ ?_ (by norm_num) <;>
      rw [show ((52:ℤ) - (-1)) = (53:ℤ) by norm_num] <;>
      rw [show ((2:ℚ)^(53:ℤ)) = 9007199254740992 by norm_num] <;>
      norm_num

/-- `0.6 + 0.2` in doubles: the tie rounds up to the double `0.8`
exactly (`0.6 + 0.2 == 0.8` is true in Python). -/
theorem flAdd_06_02 :
    flAdd ((5404319552844595:ℚ) / 9007199254740992) (7205759403792794 / 36028797018963968)
      = 7205759403792794 / 9007199254740992 := by
  unfold flAdd
  rw [show ((5404319552844595:ℚ) / 9007199254740992) + (7205759403792794 / 36028797018963968)
        = 14411518807585587 / 18014398509481984 by norm_num]
  rw [fl53_eval (e := -1) (m := 7205759403792794) (by norm_num) ?h1 ?h2 ?hm]
  · rw [show ((-1:ℤ) - 52) = -(53:ℤ) by norm_num, zpow_neg]
    norm_num
  case h1 =>
    rw [show ((-1:ℤ)) = -(1:ℤ) from rfl, zpow_neg, zpow_one]
    norm_num
  case h2 => norm_num
  case hm =>
    have h := rhe_tie_odd (q := (14411518807585587:ℚ) / 18014398509481984 * (2:ℚ)^((52:ℤ) - (-1)))
      (f := 7205759403792793) ?f ?t ?o
    · rw [h]; norm_num
    case f =>
      rw [show ((52:ℤ) - (-1)) = (53:ℤ) by norm_num,
          show ((2:ℚ)^(53:ℤ)) = 9007199254740992 by norm_num]
      norm_num
    case t =>
      rw [show ((52:ℤ) - (-1)) = (53:ℤ) by norm_num,
          show ((2:ℚ)^(53:ℤ)) = 9007199254740992 by norm_num]
      norm_num
    case o => norm_num

/-- `0.8 + 0.2` in doubles is exactly `1.0`. -/
theorem flAdd_08_02 :
    flAdd ((7205759403792794:ℚ) / 9007199254740992) (7205759403792794 / 36028797018963968)
      = 1 := by
  unfold flAdd
  rw [show ((7205759403792794:ℚ) / 9007199254740992) + (7205759403792794 / 36028797018963968)
        = 18014398509481985 / 18014398509481984 by norm_num]
  rw [fl53_eval (e := 0) (m := 4503599627370496) (by norm_num) ?h1 ?h2 ?hm]
  · rw [show ((0:ℤ) - 52) = -(52:ℤ) by norm_num, zpow_neg]
    norm_num
  case h1 => norm_num
  case h2 => norm_num
  case hm =>
    apply rhe_eq_floor (f := 4503599627370496) <;>
      rw [show ((52:ℤ) - 0) = (52:ℤ) by norm_num] <;>
      rw [show ((2:ℚ)^(52:ℤ)) = 4503599627370496 by norm_num] <;>
      norm_num

theorem flDiv_34 : flDiv (3:ℚ) 4 = 3/4 := by
  unfold flDiv; exact fl53_34

theorem flDiv_44 : flDiv (4:ℚ) 4 = 1 := by
  unfold flDiv
  rw [show ((4:ℚ)/4) = 1 by norm_num]
  exact fl53_one

theorem flAdd_zero_P1 :
    flAdd 0 ((8106479329266892:ℚ) / 18014398509481984) = 8106479329266892 / 18014398509481984 := by
  unfold flAdd; rw [zero_add]; exact fl53_idem_P1

theorem flAdd_zero_06 :
    flAdd 0 ((5404319552844595:ℚ) / 9007199254740992) = 5404319552844595 / 9007199254740992 := by
  unfold flAdd; rw [zero_add]; exact fl53_idem_06

theorem flMul_one_06 :
    flMul 1 ((5404319552844595:ℚ) / 9007199254740992) = 5404319552844595 / 9007199254740992 := by
  unfold flMul; rw [one_mul]; exact fl53_idem_06
/-! ### Bounds, exact full score, and the broken-rounding path -/

theorem yotspotFloat_bounds (t c l d u e : String) :
    0 ≤ Yotspot.calculateQualityScoreFloat t c l d u e ∧
    Yotspot.calculateQualityScoreFloat t c l d u e ≤ 1 := by
  unfold Yotspot.calculateQualityScoreFloat
  dsimp only
  constructor
  · set S : ℚ := (if t ≠ "" then (1:ℚ) else 0) + (if c ≠ "" then 1 else 0) +
      (if l ≠ "" then 1 else 0) + (if d ≠ "" then 1 else 0) with hSdef
    have hS : (0:ℚ) ≤ S := by
      rw [hSdef]; split_ifs <;> norm_num
    have hbase : 0 ≤ flAdd 0 (flMul (flDiv S 4) (fl53 (6/10))) :=
      flAdd_nonneg le_rfl (flMul_nonneg (flDiv_nonneg hS (by norm_num))
        (fl53_nonneg (by norm_num)))
    refine le_min (by norm_num) ?_
    split_ifs
    all_goals first
      | exact hbase
      | exact flAdd_nonneg hbase (fl53_nonneg (by norm_num))
      | exact flAdd_nonneg (flAdd_nonneg hbase (fl53_nonneg (by norm_num)))
          (fl53_nonneg (by norm_num))
  · exact min_le_left _ _

theorem dayworkFloat_bounds (t c l d u e : String) :
    0 ≤ Daywork.calculateQualityScoreFloat t c l d u e ∧
    Daywork.calculateQualityScoreFloat t c l d u e ≤ 1 := by
  unfold Daywork.calculateQualityScoreFloat
  dsimp only
  constructor
  · set S : ℚ := (if t ≠ "" then (1:ℚ) else 0) + (if c ≠ "" then 1 else 0) +
      (if l ≠ "" then 1 else 0) + (if d ≠ "" then 1 else 0) with hSdef
    have hS : (0:ℚ) ≤ S := by
      rw [hSdef]; split_ifs <;> norm_num
    have hbase : 0 ≤ flAdd 0 (flMul (flDiv S 4) (fl53 (6/10))) :=
      flAdd_nonneg le_rfl (flMul_nonneg (flDiv_nonneg hS (by norm_num))
        (fl53_nonneg (by norm_num)))
    refine le_min (by norm_num) ?_
    split_ifs
    all_goals first
      | exact hbase
      | exact flAdd_nonneg hbase (fl53_nonneg (by norm_num))
      | exact flAdd_nonneg (flAdd_nonneg hbase (fl53_nonneg (by norm_num)))
          (fl53_nonneg (by norm_num))
  · exact min_le_left _ _

theorem yotspotFloat_perfect (t c l d u e : String) (ht : t ≠ "") (hc : c ≠ "") (hl : l ≠ "")
    (hu : u ≠ "") (he : e ≠ "") (hd : 200 < d.length) :
    Yotspot.calculateQualityScoreFloat t c l d u e = 1 := by
  have hd' : d ≠ "" := by
    intro h; rw [h] at hd; simp at hd
  unfold Yotspot.calculateQualityScoreFloat
  dsimp only
  rw [if_pos hd, if_pos ⟨hu, he⟩, if_pos ht, if_pos hc, if_pos hl, if_pos hd']
  rw [show ((1:ℚ) + 1 + 1 + 1) = 4 by norm_num]
  rw [fl53_lit06, fl53_lit02, flDiv_44, flMul_one_06, flAdd_zero_06, flAdd_06_02, flAdd_08_02]
  exact min_self 1

theorem dayworkFloat_perfect (t c l d u e : String) (ht : t ≠ "") (hc : c ≠ "") (hl : l ≠ "")
    (hu : u ≠ "") (he : e ≠ "") (hd : 200 < d.length) :
    Daywork.calculateQualityScoreFloat t c l d u e = 1 := by
  have hd' : d ≠ "" := by
    intro h; rw [h] at hd; simp at hd
  unfold Daywork.calculateQualityScoreFloat
  dsimp only
  rw [if_pos (show 100 < d.length by omega), if_pos ⟨hu, he⟩,
      if_pos ht, if_pos hc, if_pos hl, if_pos hd']
  rw [show ((1:ℚ) + 1 + 1 + 1) = 4 by norm_num]
  rw [fl53_lit06, fl53_lit02, flDiv_44, flMul_one_06, flAdd_zero_06, flAdd_06_02, flAdd_08_02]
  exact min_self 1

/-- The 3-of-4 path in doubles: an empty title with the other core
fields, url and external id present, and a short description. -/
theorem yotspotFloat_cex :
    Yotspot.calculateQualityScoreFloat "" "Daywork123" "Palma" "Deckhand day"
      "https://www.daywork123.com" "dw123_1" = 5854679515581644 / 9007199254740992 := by
  unfold Yotspot.calculateQualityScoreFloat
  dsimp only
  rw [if_neg (by decide : ¬ 200 < ("Deckhand day" : String).length),
      if_neg (by decide : ¬ 100 < ("Deckhand day" : String).length),
      if_pos (⟨by simp, by simp⟩ :
        ("https://www.daywork123.com" : String) ≠ "" ∧ ("dw123_1" : String) ≠ ""),
      if_neg (by simp : ¬("" : String) ≠ ""), if_pos (by simp : ("Daywork123" : String) ≠ ""),
      if_pos (by simp : ("Palma" : String) ≠ ""), if_pos (by simp : ("Deckhand day" : String) ≠ "")]
  rw [show ((0:ℚ) + 1 + 1 + 1) = 3 by norm_num]
  rw [fl53_lit06, fl53_lit02, flDiv_34, flMul_34_06, flAdd_zero_P1, flAdd_P1_02]
  rw [min_eq_right (by norm_num)]

theorem dayworkFloat_cex :
    Daywork.calculateQualityScoreFloat "" "Daywork123" "Palma" "Deckhand day"
      "https://www.daywork123.com" "dw123_1" = 5854679515581644 / 9007199254740992 := by
  unfold Daywork.calculateQualityScoreFloat
  dsimp only
  rw [if_neg (by decide : ¬ 100 < ("Deckhand day" : String).length),
      if_neg (by decide : ¬ 50 < ("Deckhand day" : String).length),
      if_pos (⟨by simp, by simp⟩ :
        ("https://www.daywork123.com" : String) ≠ "" ∧ ("dw123_1" : String) ≠ ""),
      if_neg (by simp : ¬("" : String) ≠ ""), if_pos (by simp : ("Daywork123" : String) ≠ ""),
      if_pos (by simp : ("Palma" : String) ≠ ""), if_pos (by simp : ("Deckhand day" : String) ≠ "")]
  rw [show ((0:ℚ) + 1 + 1 + 1) = 3 by norm_num]
  rw [fl53_lit06, fl53_lit02, flDiv_34, flMul_34_06, flAdd_zero_P1, flAdd_P1_02]
  rw [min_eq_right (by norm_num)]

/-- In exact rational arithmetic every reachable score is a multiple of
0.05, hence an exact two-decimal value — the idealized reading of the
claim's rounding sentence. -/
theorem exactScore_two_decimal (t c l d u e : String) :
    ((Yotspot.calculateQualityScore t c l d u e) * 100).den = 1 ∧
    ((Daywork.calculateQualityScore t c l d u e) * 100).den = 1 := by
  unfold Yotspot.calculateQualityScore Daywork.calculateQualityScore
  constructor <;> split_ifs <;> norm_num

/-- C5 counterexample.  The claim says every computed quality score "is
rounded to 2 decimal places"; neither scraper has a rounding call, and
under the program's IEEE binary64 arithmetic the reachable 3-of-4
completeness path (empty title; company, location, short description,
url and external id present) computes `0.75 * 0.6 + 0.2`, whose double
value `0.6499999999999999` — the exact rational
5854679515581644/2^53 — is not a two-decimal value: `score * 100` is
not an integer.  Both scrapers produce it. -/
theorem C5_counterexample :
    Yotspot.calculateQualityScoreFloat "" "Daywork123" "Palma" "Deckhand day"
      "https://www.daywork123.com" "dw123_1" = 5854679515581644 / 9007199254740992 ∧
    ¬ ((Yotspot.calculateQualityScoreFloat "" "Daywork123" "Palma" "Deckhand day"
      "https://www.daywork123.com" "dw123_1") * 100).den = 1 ∧
    Daywork.calculateQualityScoreFloat "" "Daywork123" "Palma" "Deckhand day"
      "https://www.daywork123.com" "dw123_1" = 5854679515581644 / 9007199254740992 ∧
    ¬ ((Daywork.calculateQualityScoreFloat "" "Daywork123" "Palma" "Deckhand day"
      "https://www.daywork123.com" "dw123_1") * 100).den = 1 :=
  ⟨yotspotFloat_cex, by rw [yotspotFloat_cex]; norm_num,
   dayworkFloat_cex, by rw [dayworkFloat_cex]; norm_num⟩

/-- C5 amended.  Under the program's binary64 float semantics, every
computed quality score lies in [0.0, 1.0] (the additions accumulate
nonnegative doubles and `min(1.0, score)` caps the result), and the
fully-populated record — all four core fields, url plus external id,
description longer than 200 characters — scores exactly 1.0 in both
scrapers (`1.0*0.6`, `0.6+0.2` and `0.8+0.2` are all exact in doubles).
The score is NOT rounded to two decimal places: the code has no
rounding step, and other reachable double scores are not two-decimal
values; only under exact rational arithmetic would every score be an
exact multiple of 0.01. -/
theorem C5_amended_float_semantics :
    (∀ t c l d u e : String,
      (0 ≤ Yotspot.calculateQualityScoreFloat t c l d u e ∧
       Yotspot.calculateQualityScoreFloat t c l d u e ≤ 1) ∧
      (0 ≤ Daywork.calculateQualityScoreFloat t c l d u e ∧
       Daywork.calculateQualityScoreFloat t c l d u e ≤ 1)) ∧
    (∀ t c l d u e : String, t ≠ "" → c ≠ "" → l ≠ "" → u ≠ "" → e ≠ "" →
      200 < d.length →
      Yotspot.calculateQualityScoreFloat t c l d u e = 1 ∧
      Daywork.calculateQualityScoreFloat t c l d u e = 1) ∧
    (∀ t c l d u e : String,
      ((Yotspot.calculateQualityScore t c l d u e) * 100).den = 1 ∧
      ((Daywork.calculateQualityScore t c l d u e) * 100).den = 1) :=
  ⟨fun t c l d u e => ⟨yotspotFloat_bounds t c l d u e, dayworkFloat_bounds t c l d u e⟩,
   fun t c l d u e ht hc hl hu he hd =>
     ⟨yotspotFloat_perfect t c l d u e ht hc hl hu he hd,
      dayworkFloat_perfect t c l d u e ht hc hl hu he hd⟩,
   exactScore_two_decimal⟩

/-- C5 witness: the concrete fully-populated record with a
201-character description scores exactly 1.0 in both scrapers under
float semantics. -/
theorem C5_witness :
    Yotspot.calculateQualityScoreFloat "Deckhand" "Yotspot" "Palma"
      (String.mk (List.replicate 201 'a')) "https://www.yotspot.com/jobs/1" "1" = 1 ∧
    Daywork.calculateQualityScoreFloat "Deckhand" "Yotspot" "Palma"
      (String.mk (List.replicate 201 'a')) "https://www.yotspot.com/jobs/1" "1" = 1 :=
  C5_amended_float_semantics.2.1 "Deckhand" "Yotspot" "Palma" (String.mk (List.replicate 201 'a'))
    "https://www.yotspot.com/jobs/1" "1"
    (by decide) (by decide) (by decide) (by decide) (by decide)
    (by show 200 < (List.replicate 201 'a').length
        rw [List.length_replicate]
        norm_num)


/-- C6 counterexample.  The claim fixes one priority order — daywork
terms first — for "employment-type detection"; the Yotspot detector
instead tests permanent, temporary, rotational, seasonal, contract in
that order and knows no daywork terms at all.  On "temporary daywork"
the claimed order (stated as `specEmploymentPriority`) yields `daywork`
while the Yotspot detector yields `temporary`; on "daywork" alone the
Yotspot detector falls through to the `permanent` default. -/
theorem C6_counterexample :
    Yotspot.detectEmploymentType (some "temporary daywork") = .temporary ∧
    specEmploymentPriority "temporary daywork" = .daywork ∧
    Yotspot.detectEmploymentType (some "daywork") = .permanent ∧
    specEmploymentPriority "daywork" = .daywork := by
  refine ⟨by decide, by decide, by decide, by decide⟩

/-- C6 amended.  The Daywork123 detector agrees with the claimed
priority order (daywork, then rotational, seasonal, contract/temporary,
else permanent) on every lower-cased input; the Yotspot detector tests
permanent, temporary, rotational, seasonal, contract, and any text that
carries none of those five keywords — "daywork" included — falls back
to `permanent`. -/
theorem C6_amended_priority_order :
    (∀ s : String, Daywork.detectEmploymentType s = specEmploymentPriority s) ∧
    (∀ s : String,
      (∀ k ∈ (["permanent", "temporary", "rotational", "seasonal", "contract"] : List String),
        strContains (strLower s) k = false) →
      Yotspot.detectEmploymentType (some s) = .permanent) := by
  constructor
  · intro s; rfl
  · intro s h
    have h1 := h "permanent" (by simp)
    have h2 := h "temporary" (by simp)
    have h3 := h "rotational" (by simp)
    have h4 := h "seasonal" (by simp)
    have h5 := h "contract" (by simp)
    simp [Yotspot.detectEmploymentType, h1, h2, h3, h4, h5]

/-- C6 witness: "daywork" carries none of the Yotspot detector's five
keywords, so it is classified `permanent` there. -/
theorem C6_witness : Yotspot.detectEmploymentType (some "daywork") = .permanent :=
  C6_amended_priority_order.2 "daywork" (by decide)

/-- C9: every detector is total into its enum — each returns one of the
declared constructors for any input (the `Optional` return types
of the source notwithstanding, no code path returns `None`); and the
keyword-free title "Random Text With No Keywords" gets the documented
defaults (permanent, other, motor_yacht) in both scrapers. -/
theorem C9_classification_totality :
    (∀ s : Option String, Yotspot.detectEmploymentType s ∈
      [EmploymentType.permanent, .temporary, .rotational, .daywork, .seasonal, .contract]) ∧
    (∀ s : String, Yotspot.detectDepartment s ∈
      [Department.deck, .interior, .engineering, .galley, .bridge, .other]) ∧
    (∀ s : String, Yotspot.detectVesselType s ∈
      [VesselType.motor_yacht, .sailing_yacht, .catamaran, .super_yacht, .expedition, .chase_boat]) ∧
    (∀ s : String, Daywork.detectEmploymentType s ∈
      [EmploymentType.permanent, .temporary, .rotational, .daywork, .seasonal, .contract]) ∧
    (∀ s : String, Daywork.detectDepartment s ∈
      [Department.deck, .interior, .engineering, .galley, .bridge, .other]) ∧
    (∀ s : String, Daywork.detectVesselType s ∈
      [VesselType.motor_yacht, .sailing_yacht, .catamaran, .super_yacht, .expedition, .chase_boat]) ∧
    Yotspot.detectEmploymentType (some "Random Text With No Keywords") = .permanent ∧
    Yotspot.detectDepartment "Random Text With No Keywords" = .other ∧
    Yotspot.detectVesselType "Random Text With No Keywords" = .motor_yacht ∧
    Daywork.detectEmploymentType "Random Text With No Keywords" = .permanent ∧
    Daywork.detectDepartment "Random Text With No Keywords" = .other ∧
    Daywork.detectVesselType "Random Text With No Keywords" = .motor_yacht := by
  refine ⟨fun s => ?_, fun s => ?_, fun s => ?_, fun s => ?_, fun s => ?_, fun s => ?_,
    by decide, by decide, by decide, by decide, by decide, by decide⟩
  · simp only [Yotspot.detectEmploymentType]; split_ifs <;> simp
  · simp only [Yotspot.detectDepartment]; split_ifs <;> simp
  · simp only [Yotspot.detectVesselType]; split_ifs <;> simp
  · simp only [Daywork.detectEmploymentType]; split_ifs <;> simp
  · simp only [Daywork.detectDepartment]; split_ifs <;> simp
  · simp only [Daywork.detectVesselType]; split_ifs <;> simp

/-- C10: whatever record `UniversalJob` construction accepts satisfies
the pydantic bounds — title 3..200 characters, company and location at
most 100, description at least 10, quality score in [0, 1]; and the
2-character-title and 5-character-description candidates are rejected
with a validation error. -/
theorem C10_universal_job_invariant :
    (∀ (c : JobCandidate) (j : UniversalJob), mkUniversalJob c = .ok j →
      3 ≤ j.title.length ∧ j.title.length ≤ 200 ∧ j.company.length ≤ 100 ∧
      j.location.length ≤ 100 ∧ 10 ≤ j.description.length ∧
      0 ≤ j.quality_score ∧ j.quality_score ≤ 1) ∧
    mkUniversalJob c10BadTitle = .error "title too short" ∧
    mkUniversalJob c10BadDesc = .error "description too short" := by
  refine ⟨?_, rfl, rfl⟩
  intro c j h
  unfold mkUniversalJob at h
  split_ifs at h with h1 h2 h3 h4 h5 h6 h7 h8
  all_goals first
    | exact Except.noConfusion h
    | (injection h with h'
       subst h'
       dsimp only
       exact ⟨by omega, by omega, by omega, by omega, by omega,
              le_of_not_lt h7, le_of_not_lt h8⟩)

/-- C10 witness: the in-bounds candidate is accepted and its record
satisfies every bound. -/
theorem C10_witness :
    3 ≤ c10GoodJob.title.length ∧ c10GoodJob.title.length ≤ 200 ∧
    c10GoodJob.company.length ≤ 100 ∧ c10GoodJob.location.length ≤ 100 ∧
    10 ≤ c10GoodJob.description.length ∧
    0 ≤ c10GoodJob.quality_score ∧ c10GoodJob.quality_score ≤ 1 :=
  C10_universal_job_invariant.1 c10Good c10GoodJob rfl

/-! ## Claim theorems: C1, C2, C7, C8 -/

/-- C1: starting from an empty store, any sequence of scrape runs
leaves the natural keys pairwise distinct — a job whose
`(source, external_id)` already exists updates the existing record
instead of inserting (and a batch that would break uniqueness is rolled
back whole, leaving the store unchanged).  In particular the spec's
two-run scenario — "acme"/"123" observed as "Deckhand" and then as
"Senior Deckhand" — leaves exactly one record for that key, titled
"Senior Deckhand". -/
theorem C1_natural_key_never_duplicated :
    (∀ runs : List (Int × List JobInput), natKeysDistinct (runAll emptyDB runs).rows) ∧
    ((runAll emptyDB [(10, [jobDeckhand]), (20, [jobSeniorDeckhand])]).rows.filter
        (fun row => row.external_id == "123" && row.source == "acme")).map Row.title
      = ["Senior Deckhand"] := by
  constructor
  · intro runs
    apply natKeysDistinct_of_nodup
    have key : ∀ (rs : List (Int × List JobInput)) (db : DB),
        (db.rows.map Row.external_id).Nodup →
        ((runAll db rs).rows.map Row.external_id).Nodup := by
      intro rs
      induction rs with
      | nil => intro db h; exact h
      | cons p ps ih =>
        intro db h
        unfold runAll
        rw [List.foldl_cons]
        exact ih _ (saveJobs_good _ _ _ h)
    exact key runs emptyDB (by simp [emptyDB])
  · decide

/-- C2: the dedup lookup is indeed by the compound key and the primary
identifier is a surrogate, but `app/models.py` additionally declares
`external_id` UNIQUE on its own, so two records sharing external id
"777" from sources "yotspot" and "daywork123" cannot both be stored:
after the yotspot record is committed, saving the daywork123 record
fails the batch commit and the store still holds only the yotspot row,
with 0 new and 0 updated reported. -/
theorem C2_external_id_reuse_collides :
    c2StoreAfterFirst.rows.map Row.external_id = ["777"] ∧
    c2StoreAfterFirst.rows.map Row.source = ["yotspot"] ∧
    saveJobs c2StoreAfterFirst 20 [jobDay777] = (c2StoreAfterFirst, 0, 0) :=
  ⟨by decide, by decide, by decide⟩

/-- C7 counterexample.  A batch of five records whose third one violates
the unique-external-id constraint: the claim says records 1, 2, 4, 5
are still committed and the batch reports 4 successes and 1 failure;
in fact the violation only surfaces at the single `db.commit()`, the
whole batch is rolled back — the store still holds only the
pre-existing "E3" row — and the run reports 0 new and 0 updated, with
no failure count anywhere. -/
theorem C7_counterexample :
    (saveJobs c7DB 100 c7Batch).1.rows.map Row.external_id = ["E3"] ∧
    (saveJobs c7DB 100 c7Batch).2 = (0, 0) :=
  ⟨by decide, by decide⟩

/-- C7 amended.  Per-record isolation does not extend to constraint
violations: whenever a batch contains a record whose external id
collides with a committed row of a different source, the insert goes
through the per-record loop untouched (the dedup query is compound, so
it misses) and the single batch commit then fails, rolling back the
entire batch — the store is returned unchanged and the result reports
0 new and 0 updated. -/
theorem C7_amended_constraint_violation_rolls_back_batch
    (db : DB) (now : Int) (jobs : List JobInput) (j : JobInput) (r : Row)
    (hgood : (db.rows.map Row.external_id).Nodup)
    (hr : r ∈ db.rows) (hj : j ∈ jobs)
    (he : j.external_id = r.external_id) (hs : j.source ≠ r.source) :
    saveJobs db now jobs = (db, 0, 0) := by
  obtain ⟨l1, l2, hsplit⟩ := List.append_of_mem hj
  subst hsplit
  set st0 : SaveState := ⟨db.rows, [], db.nextId, 0, 0⟩ with hst0
  set stA := l1.foldl (processJob now) st0 with hstA
  have hpA : stA.persistent.map keyPair = db.rows.map keyPair := by
    rw [hstA, foldl_persistent_keys]
  have hfind : stA.persistent.find? (keyMatch j) = none := by
    cases hf : stA.persistent.find? (keyMatch j) with
    | none => rfl
    | some r' =>
      exfalso
      have hmem := List.mem_of_find?_eq_some hf
      have hkm := keyMatch_eq (List.find?_some hf)
      have hk : keyPair r' ∈ db.rows.map keyPair := by
        rw [← hpA]; exact List.mem_map_of_mem _ hmem
      obtain ⟨row, hrow, hkeq⟩ := List.mem_map.1 hk
      have hre : row.external_id = r.external_id := by
        have h1 : row.external_id = r'.external_id := congrArg Prod.fst hkeq
        rw [h1, hkm.1, he]
      have hrr : row = r := List.inj_on_of_nodup_map hgood hrow hr hre
      have hrs : row.source = j.source := by
        have h2 : row.source = r'.source := congrArg Prod.snd hkeq
        rw [h2, hkm.2]
      exact hs (by rw [← hrs, hrr])
  have hstep : processJob now stA j =
      { stA with pending := stA.pending ++ [mkRow stA.nextId j now],
                 nextId := stA.nextId + 1, newCount := stA.newCount + 1 } := by
    unfold processJob; rw [hfind]
  set stC := l2.foldl (processJob now) (processJob now stA j) with hstC
  have hpC : stC.persistent.map keyPair = db.rows.map keyPair := by
    rw [hstC, foldl_persistent_keys, hstep]
    exact hpA
  have hpend : mkRow stA.nextId j now ∈ stC.pending := by
    rw [hstC]
    apply foldl_pending_mono
    rw [hstep]
    exact List.mem_append_right _ (List.mem_singleton_self _)
  have heidP : r.external_id ∈ stC.persistent.map Row.external_id := by
    have h1 : keyPair r ∈ stC.persistent.map keyPair := by
      rw [hpC]; exact List.mem_map_of_mem _ hr
    have h2 := List.mem_map_of_mem Prod.fst h1
    rw [List.map_map] at h2
    exact h2
  have heidQ : r.external_id ∈ stC.pending.map Row.external_id := by
    refine List.mem_map.2 ⟨mkRow stA.nextId j now, hpend, ?_⟩
    exact he
  have hnotnodup : ¬ (((stC.persistent ++ stC.pending).map Row.external_id).Nodup) := by
    rw [List.map_append]
    intro hnd
    exact (List.nodup_append.1 hnd).2.2 heidP heidQ
  show saveJobs db now (l1 ++ j :: l2) = (db, 0, 0)
  unfold saveJobs
  dsimp only
  rw [List.foldl_append, List.foldl_cons]
  rw [if_neg hnotnodup]

/-- C7 witness: the amended theorem applied to the concrete batch of
five where record 3 collides with the committed "E3" row. -/
theorem C7_witness : saveJobs c7DB 100 c7Batch = (c7DB, 0, 0) :=
  C7_amended_constraint_violation_rolls_back_batch c7DB 100 c7Batch (c7Job "E3") c7Existing
    (by decide) (List.mem_singleton_self _)
    (List.Mem.tail _ (List.Mem.tail _ (List.Mem.head _)))
    rfl (by decide)

/-- C8: upserting a record whose natural key is already present — with
identical or changed field values — mutates the existing row in place:
its surrogate id, `created_at`, key fields, `source_url` and
`posted_date` are untouched, the mutable fields take the incoming
values, `updated_at` becomes the current time, no row is added or
removed, and the batch reports 0 new / 1 updated. -/
theorem C8_update_preserves_identity
    (db : DB) (now : Int) (j : JobInput) (r : Row)
    (hgood : (db.rows.map Row.external_id).Nodup)
    (hfind : db.rows.find? (keyMatch j) = some r) :
    (∃ r' ∈ (saveJobs db now [j]).1.rows,
      r'.id = r.id ∧ r'.created_at = r.created_at ∧
      r'.external_id = r.external_id ∧ r'.source = r.source ∧
      r'.source_url = r.source_url ∧ r'.posted_date = r.posted_date ∧
      r'.title = j.title ∧ r'.company = j.company ∧ r'.location = j.location ∧
      r'.description = j.description ∧ r'.salary_range = j.salary_range ∧
      r'.employment_type = j.employment_type ∧ r'.department = j.department ∧
      r'.vessel_type = j.vessel_type ∧ r'.quality_score = j.quality_score ∧
      r'.updated_at = now) ∧
    (saveJobs db now [j]).1.rows.length = db.rows.length ∧
    (saveJobs db now [j]).2 = (0, 1) := by
  have hmap : (replaceFirstMatch (keyMatch j) (fun x => applyUpdate x j now) db.rows).map
      Row.external_id = db.rows.map Row.external_id :=
    replaceFirstMatch_map_eq (keyMatch j) (fun x => applyUpdate x j now) Row.external_id
      (fun x => rfl) db.rows
  have heval : saveJobs db now [j] =
      (⟨replaceFirstMatch (keyMatch j) (fun x => applyUpdate x j now) db.rows, db.nextId⟩, 0, 1) := by
    unfold saveJobs
    dsimp only
    rw [List.foldl_cons, List.foldl_nil]
    unfold processJob
    rw [hfind]
    dsimp only
    rw [List.append_nil]
    rw [if_pos (by rw [hmap]; exact hgood)]
  rw [heval]
  refine ⟨⟨applyUpdate r j now, mem_replaceFirstMatch_of_find? _ _ _ hfind, ?_⟩,
          replaceFirstMatch_length _ _ _, rfl⟩
  exact ⟨rfl, rfl, rfl, rfl, rfl, rfl, rfl, rfl, rfl, rfl, rfl, rfl, rfl, rfl, rfl, rfl⟩

/-- C8 witness: the "acme"/"123" row updated by the retitled record at
time 20 keeps its id and `created_at`, takes the new title, and has
`updated_at` = 20. -/
theorem C8_witness :
    (∃ r' ∈ (saveJobs c8DB 20 [jobSeniorDeckhand]).1.rows,
      r'.id = c8Row.id ∧ r'.created_at = c8Row.created_at ∧
      r'.external_id = c8Row.external_id ∧ r'.source = c8Row.source ∧
      r'.source_url = c8Row.source_url ∧ r'.posted_date = c8Row.posted_date ∧
      r'.title = jobSeniorDeckhand.title ∧ r'.company = jobSeniorDeckhand.company ∧
      r'.location = jobSeniorDeckhand.location ∧
      r'.description = jobSeniorDeckhand.description ∧
      r'.salary_range = jobSeniorDeckhand.salary_range ∧
      r'.employment_type = jobSeniorDeckhand.employment_type ∧
      r'.department = jobSeniorDeckhand.department ∧
      r'.vessel_type = jobSeniorDeckhand.vessel_type ∧
      r'.quality_score = jobSeniorDeckhand.quality_score ∧
      r'.updated_at = 20) ∧
    (saveJobs c8DB 20 [jobSeniorDeckhand]).1.rows.length = c8DB.rows.length ∧
    (saveJobs c8DB 20 [jobSeniorDeckhand]).2 = (0, 1) :=
  C8_update_preserves_identity c8DB 20 jobSeniorDeckhand c8Row (by decide) (by decide)
